import Mathlib

/-!
Shallow embedding of `dilib-derive/src/target.rs` (the `#[derive(Injectable)]`
analysis-and-synthesis pipeline) and proofs about its behaviour.

The embedding mirrors the `syn` data the source inspects: a field's declared
type is a `syn::Type`, of which the code only distinguishes `Type::Path`
(with its `qself` flag, its list of path segments, and each segment's
generic arguments) from every other variant.  Code that can panic
(`Option::unwrap`) is embedded in `Except String`, where `Except.error`
models a panic with the panic's message.
-/

namespace Dilib

mutual

/-- `syn::Type`: the code only distinguishes `Type::Path` (with its `qself`
flag and path segments) from every other variant. -/
inductive RsType : Type where
  | path (qself : Bool) (segments : List RsSegment)
  | other

/-- `syn::PathSegment`: an identifier plus its generic arguments. -/
inductive RsSegment : Type where
  | mk (ident : String) (args : RsPathArguments)

/-- `syn::PathArguments`. -/
inductive RsPathArguments : Type where
  | noArgs
  | angleBracketed (args : List RsGenericArg)
  | parenthesized

/-- `syn::GenericArgument`: the code only distinguishes
`GenericArgument::Type(Type::Path _)`, other `Type`s, and non-type
arguments (lifetimes, consts, bindings, ...). -/
inductive RsGenericArg : Type where
  | lifetime
  | typeArg (t : RsType)
  | otherArg

end

def RsSegment.ident : RsSegment → String
  | .mk i _ => i

def RsSegment.args : RsSegment → RsPathArguments
  | .mk _ a => a

/-- `syn::PathArguments::is_empty`: `None` is empty, angle-bracketed
arguments are empty iff the argument list is, parenthesized arguments are
never empty. -/
def RsPathArguments.is_empty : RsPathArguments → Bool
  | .noArgs => true
  | .angleBracketed args => args.isEmpty
  | .parenthesized => false

/-- The message of the panic raised by `Option::unwrap` on `None`. -/
def UNWRAP_MSG : String := "called `Option::unwrap()` on a `None` value"

/-- `Scope` from `dilib-derive/src/dependency.rs` (declared there, used by
`target.rs`): `Singleton` or `Scoped`. -/
inductive Scope : Type where
  | Singleton
  | Scoped
  deriving DecidableEq

/-- `TargetField` from `dilib-derive/src/dependency.rs`: a named field's
identifier or an unnamed field's zero-based index. -/
inductive TargetField : Type where
  | named (ident : String)
  | unnamed (index : Nat)
  deriving DecidableEq

/-- `get_singleton_type` (target.rs, lines 186-236).  Returns
`.ok (some inner)` when the declared type matches a recognized wrapper
shape, `.ok none` when it does not, and `.error UNWRAP_MSG` when the code
panics on an `unwrap`.

The source checks `ident == "Singleton"` and then, further down in the
same function body, `ident == "Arc"`; since `ident` is a single string the
two guards are mutually exclusive, so the sequential fall-through of the
source is rendered here as an `if .. else if .. else` chain.  The source
also renders the path to a whitespace-stripped string (`raw` / `s`,
lines 196-197) but never uses it; that dead code is omitted. -/
def get_singleton_type (ty : RsType) : Except String (Option RsType) :=
  match ty with
  | RsType.other => Except.ok none
  | RsType.path qself segments =>
    -- Is declared as <T as Trait>::Inner
    if qself then Except.ok none
    else
      -- SAFETY comment in the source notwithstanding, `last().unwrap()`
      -- is a panic when the segment list is empty.
      match segments.getLast? with
      | none => Except.error UNWRAP_MSG
      | some segment =>
        -- Is `Singleton<T>`
        if segment.ident == "Singleton" && !segment.args.is_empty then
          match segment.args with
          | RsPathArguments.angleBracketed bargs =>
            match bargs.head? with
            | none => Except.error UNWRAP_MSG
            | some (RsGenericArg.typeArg (RsType.path q2 segs2)) =>
              Except.ok (some (RsType.path q2 segs2))
            | some _ => Except.ok none
          | _ => Except.ok none
        -- Is `Arc<Mutex<T>>`
        else if segment.ident == "Arc" then
          match segment.args with
          | RsPathArguments.angleBracketed bargs =>
            -- No emptiness guard here: `first().unwrap()` panics on `Arc<>`.
            match bargs.head? with
            | none => Except.error UNWRAP_MSG
            | some (RsGenericArg.typeArg (RsType.path qg gsegs)) =>
              match gsegs.getLast? with
              | none => Except.error UNWRAP_MSG
              | some inner =>
                if inner.ident == "Mutex" then
                  -- Returns the whole `Mutex<T>` path (`generic.clone()`),
                  -- not the `T` inside it.
                  Except.ok (some (RsType.path qg gsegs))
                else Except.ok none
            | some _ => Except.ok none
          | _ => Except.ok none
        else Except.ok none

/-- `get_type_and_scope` (target.rs, lines 178-184). -/
def get_type_and_scope (ty : RsType) : Except String (RsType × Scope) :=
  match get_singleton_type ty with
  | Except.error e => Except.error e
  | Except.ok (some generic) => Except.ok (generic, Scope.Singleton)
  | Except.ok none => Except.ok (ty, Scope.Scoped)

/-- `syn::Field`: the code uses only the optional identifier and the
declared type. -/
structure RsField : Type where
  ident : Option String
  ty : RsType

/-- `syn::Fields`: unit, named, or unnamed (tuple) fields. -/
inductive Fields : Type where
  | named (fields : List RsField)
  | unnamed (fields : List RsField)
  | unit

/-- `syn::DataStruct`: the code uses only its `fields`. -/
structure DataStruct : Type where
  fields : Fields

/-- `syn::Data`: struct, enum, or union input. The code never inspects the
payload of the enum and union variants. -/
inductive Data : Type where
  | enumData
  | unionData
  | structData (d : DataStruct)

/-- `syn::DeriveInput`: the code uses only `ident` and `data`. -/
structure DeriveInput : Type where
  ident : String
  data : Data

/-- `Dependency` from `dilib-derive/src/dependency.rs` (constructed in
`target.rs` via `Dependency::new(field, field_type, scope, container)`). -/
structure Dependency : Type where
  field : TargetField
  field_type : RsType
  scope : Scope
  container : String

/-- The `CONTAINER_IDENT` constant of `get_container_identifier`. -/
def CONTAINER_IDENT : String := "container"

/-- The collision loop of `get_container_identifier` (target.rs,
lines 113-126): state is the current candidate `container_name` and the
`matches` counter (starting at 1; `matches` is a Lean keyword, so it is
named `matchCount` here); on a collision the counter is appended to the
*current* candidate and then incremented.  `f.ident.as_ref().unwrap()`
on a field without an identifier is a panic. -/
def container_name_loop : List RsField → String → Nat → Except String String
  | [], container_name, _ => Except.ok container_name
  | f :: rest, container_name, matchCount =>
    match f.ident with
    | none => Except.error UNWRAP_MSG
    | some field_name =>
      if field_name == container_name then
        container_name_loop rest (container_name ++ toString matchCount) (matchCount + 1)
      else
        container_name_loop rest container_name matchCount

/-- `get_container_identifier` (target.rs, lines 108-133). -/
def get_container_identifier (struct_data : DataStruct) : Except String String :=
  match struct_data.fields with
  | Fields.named fields => container_name_loop fields CONTAINER_IDENT 1
  | Fields.unnamed _ => Except.ok CONTAINER_IDENT
  | Fields.unit => Except.ok "_"

/-- The named-fields loop of `get_deps` (target.rs, lines 144-157):
one `Dependency` per field, in declaration order; the field's identifier
is `unwrap`ped and the declared type classified by `get_type_and_scope`. -/
def get_deps_named (container : String) : List RsField → Except String (List Dependency)
  | [] => Except.ok []
  | f :: rest =>
    match f.ident with
    | none => Except.error UNWRAP_MSG
    | some name =>
      match get_type_and_scope f.ty with
      | Except.error e => Except.error e
      | Except.ok (field_type, scope) =>
        match get_deps_named container rest with
        | Except.error e => Except.error e
        | Except.ok deps =>
          Except.ok (Dependency.mk (TargetField.named name) field_type scope container :: deps)

/-- The unnamed-fields loop of `get_deps` (target.rs, lines 160-173):
`enumerate()` indices start at `start` (0 at the call site). -/
def get_deps_unnamed (container : String) (start : Nat) :
    List RsField → Except String (List Dependency)
  | [] => Except.ok []
  | f :: rest =>
    match get_type_and_scope f.ty with
    | Except.error e => Except.error e
    | Except.ok (field_type, scope) =>
      match get_deps_unnamed container (start + 1) rest with
      | Except.error e => Except.error e
      | Except.ok deps =>
        Except.ok (Dependency.mk (TargetField.unnamed start) field_type scope container :: deps)

/-- `get_deps` (target.rs, lines 135-176).  Note the container identifier
attached to every dependency is the hard-coded `Ident::new("container", ..)`
of line 137 — not the identifier chosen by `get_container_identifier`. -/
def get_deps (fields : Fields) : Except String (List Dependency) :=
  let container := "container"
  match fields with
  | Fields.unit => Except.ok []
  | Fields.named fields_named => get_deps_named container fields_named
  | Fields.unnamed fields_unnamed => get_deps_unnamed container 0 fields_unnamed

/-- `TargetConstructor` (target.rs, lines 17-20). -/
structure TargetConstructor : Type where
  name : String
  params : List String

/-- `InjectableTarget` (target.rs, lines 9-15). -/
structure InjectableTarget : Type where
  target_type : String
  container : String
  constructor : Option TargetConstructor
  deps : List Dependency
  is_unit : Bool

/-- `get_target_constructor` (target.rs, lines 103-106): always `None`
(marked `todo` in the source). -/
def get_target_constructor (_input : DeriveInput) : Option TargetConstructor :=
  none

/-- `data_struct.fields == Fields::Unit` (target.rs, line 96): `syn`'s
`PartialEq` compares variants, so zero-field named or unnamed field lists
are *not* equal to `Fields::Unit`. -/
def fields_is_unit : Fields → Bool
  | Fields.unit => true
  | Fields.named _ => false
  | Fields.unnamed _ => false

/-- `parse_derive_injectable` (target.rs, lines 87-101).  `panic!` in the
enum and union arms is modelled by `Except.error` with the panic message. -/
def parse_derive_injectable (input : DeriveInput) : Except String InjectableTarget :=
  match input.data with
  | Data.enumData =>
    Except.error "Enum types cannot implement `Injectable` with #[derive]"
  | Data.unionData =>
    Except.error "Union types cannot implement `Injectable` with #[derive]"
  | Data.structData data_struct =>
    let target_type := input.ident
    let constructor := get_target_constructor input
    match get_container_identifier data_struct with
    | Except.error e => Except.error e
    | Except.ok container =>
      match get_deps data_struct.fields with
      | Except.error e => Except.error e
      | Except.ok deps =>
        Except.ok (InjectableTarget.mk target_type container constructor deps
          (fields_is_unit data_struct.fields))

/-- Modelled from the spec: `Dependency::var_name` lives in the crate's
`dependency.rs`, which is not among the sources here; the spec only says
each dependency gets a "synthesized local binding" (named fields bind by
field name, positional fields by an index-derived name).  The exact spelling
of the positional binding is this model's choice. -/
def var_name (d : Dependency) : String :=
  match d.field with
  | TargetField.named n => n
  | TargetField.unnamed i => "v" ++ toString i

/-- The output of `InjectableTarget::emit`, structured along the `quote!`
templates of target.rs (lines 44-84): the implemented-for type name, the
identifier bound by the generated `resolve` function's parameter, the
dependencies whose resolution statements form the body (one statement per
dependency, in list order; the rendering of each statement is
`Dependency`'s `ToTokens` in the missing `dependency.rs`), and the final
construction expression as a token list. -/
structure EmittedImpl : Type where
  target_type : String
  resolve_param : String
  body_deps : List Dependency
  create_instance : List String

/-- `InjectableTarget::emit` (target.rs, lines 44-84).  The unit path
(lines 47-55) binds `_` and constructs `#target_type` bare.  Otherwise the
construction expression is `#target_type :: #constructor_name ( #(#params)* )`
when a constructor is present (line 68 — note: no separator between the
parameters) and `#target_type { #(#params),* }` when not (line 73 — a
brace-delimited, comma-separated field literal, for named and unnamed
fields alike). -/
def InjectableTarget.emit (t : InjectableTarget) : EmittedImpl :=
  if t.is_unit then
    EmittedImpl.mk t.target_type "_" [] [t.target_type]
  else
    let create_instance :=
      match t.constructor with
      | some constructor =>
        [t.target_type, "::", constructor.name, "("] ++ constructor.params ++ [")"]
      | none =>
        [t.target_type, "\x7b"] ++ List.intersperse "," (t.deps.map var_name) ++ ["\x7d"]
    EmittedImpl.mk t.target_type t.container t.deps create_instance

/-- Spec-side characterization (following the words of claim C4, as amended)
of the declared-type shapes that the claim lists as non-matches and that
target.rs indeed classifies by default: non-path types, qualified
self-types, paths whose last segment is named neither `Singleton` nor
`Arc` (unresolved generic parameters, `Foo`, `Box<Foo>`, `Vec<Foo>`, ...),
and a last segment named `Singleton` with an empty generic-argument list. -/
def spec_default_shape : RsType → Bool
  | RsType.other => true
  | RsType.path qself segs =>
    qself ||
    (match segs.getLast? with
     | none => false
     | some seg =>
       (seg.ident != "Singleton" && seg.ident != "Arc") ||
       (seg.ident == "Singleton" && seg.args.is_empty))

/-! ## Helper lemmas -/

/-- The only panic `get_singleton_type` can raise is an `unwrap` panic. -/
theorem get_singleton_type_error_eq (ty : RsType) (e : String)
    (h : get_singleton_type ty = Except.error e) : e = UNWRAP_MSG := by
  unfold get_singleton_type at h
  repeat' split at h
  all_goals first
    | exact Except.noConfusion h
    | (injection h with h1; exact h1.symm)

/-- The only panic `get_type_and_scope` can raise is an `unwrap` panic. -/
theorem get_type_and_scope_error_eq (ty : RsType) (e : String)
    (h : get_type_and_scope ty = Except.error e) : e = UNWRAP_MSG := by
  unfold get_type_and_scope at h
  split at h
  next e' heq =>
    injection h with h1
    exact h1 ▸ get_singleton_type_error_eq ty e' heq
  next => exact Except.noConfusion h
  next => exact Except.noConfusion h

/-- The only panic the collision loop can raise is an `unwrap` panic. -/
theorem container_name_loop_error_eq (fs : List RsField) (name : String) (k : Nat)
    (e : String) (h : container_name_loop fs name k = Except.error e) : e = UNWRAP_MSG := by
  induction fs generalizing name k with
  | nil => exact Except.noConfusion h
  | cons f rest ih =>
    unfold container_name_loop at h
    split at h
    · injection h with h1; exact h1.symm
    · split at h
      · exact ih _ _ h
      · exact ih _ _ h

/-- The only panic the named-fields loop of `get_deps` can raise is an
`unwrap` panic. -/
theorem get_deps_named_error_eq (c : String) (fs : List RsField) (e : String)
    (h : get_deps_named c fs = Except.error e) : e = UNWRAP_MSG := by
  induction fs with
  | nil => exact Except.noConfusion h
  | cons f rest ih =>
    unfold get_deps_named at h
    split at h
    · injection h with h1; exact h1.symm
    · split at h
      next e' heq =>
        injection h with h1
        exact h1 ▸ get_type_and_scope_error_eq f.ty e' heq
      next p heq =>
        split at h
        next e2 heq2 =>
          injection h with h1
          exact ih (h1 ▸ heq2)
        next => exact Except.noConfusion h

/-- The only panic the unnamed-fields loop of `get_deps` can raise is an
`unwrap` panic. -/
theorem get_deps_unnamed_error_eq (c : String) (k : Nat) (fs : List RsField) (e : String)
    (h : get_deps_unnamed c k fs = Except.error e) : e = UNWRAP_MSG := by
  induction fs generalizing k with
  | nil => exact Except.noConfusion h
  | cons f rest ih =>
    unfold get_deps_unnamed at h
    split at h
    next e' heq =>
      injection h with h1
      exact h1 ▸ get_type_and_scope_error_eq f.ty e' heq
    next p heq =>
      split at h
      next e2 heq2 =>
        injection h with h1
        exact ih _ (h1 ▸ heq2)
      next => exact Except.noConfusion h

/-- The only panic `get_container_identifier` can raise is an `unwrap` panic. -/
theorem get_container_identifier_error_eq (ds : DataStruct) (e : String)
    (h : get_container_identifier ds = Except.error e) : e = UNWRAP_MSG := by
  unfold get_container_identifier at h
  split at h
  · exact container_name_loop_error_eq _ _ _ _ h
  · exact Except.noConfusion h
  · exact Except.noConfusion h

/-- The only panic `get_deps` can raise is an `unwrap` panic. -/
theorem get_deps_error_eq (fields : Fields) (e : String)
    (h : get_deps fields = Except.error e) : e = UNWRAP_MSG := by
  unfold get_deps at h
  split at h
  · exact Except.noConfusion h
  · exact get_deps_named_error_eq _ _ _ h
  · exact get_deps_unnamed_error_eq _ _ _ _ h

/-- Definitional unfolding of `parse_derive_injectable` on a struct input. -/
theorem parse_struct_eq (name : String) (ds : DataStruct) :
    parse_derive_injectable (DeriveInput.mk name (Data.structData ds)) =
      (match get_container_identifier ds with
       | Except.error e => Except.error e
       | Except.ok container =>
         match get_deps ds.fields with
         | Except.error e => Except.error e
         | Except.ok deps =>
           Except.ok (InjectableTarget.mk name container none deps
             (fields_is_unit ds.fields))) := rfl

/-- On a struct input, the only panic `parse_derive_injectable` can raise
is an `unwrap` panic — in particular, never one of the two unsupported-shape
diagnostics. -/
theorem parse_struct_error_eq (name : String) (ds : DataStruct) (e : String)
    (h : parse_derive_injectable (DeriveInput.mk name (Data.structData ds)) = Except.error e) :
    e = UNWRAP_MSG := by
  rw [parse_struct_eq] at h
  split at h
  next e' heq =>
    injection h with h1
    exact h1 ▸ get_container_identifier_error_eq ds e' heq
  next c heq =>
    split at h
    next e2 heq2 =>
      injection h with h1
      exact h1 ▸ get_deps_error_eq ds.fields e2 heq2
    next => exact Except.noConfusion h

/-- `fields == Fields::Unit` holds exactly for the unit shape. -/
theorem fields_is_unit_iff (f : Fields) : fields_is_unit f = true ↔ f = Fields.unit := by
  cases f <;> simp [fields_is_unit]

/-- A declared type of one of the shapes in `spec_default_shape` matches
neither wrapper pattern. -/
theorem default_shape_none (ty : RsType) (h : spec_default_shape ty = true) :
    get_singleton_type ty = Except.ok none := by
  cases ty with
  | other => rfl
  | path qself segs =>
    cases qself with
    | true => rfl
    | false =>
      unfold spec_default_shape at h
      simp only [Bool.false_or] at h
      unfold get_singleton_type
      simp only [if_neg, Bool.false_eq_true, not_false_eq_true, if_false]
      cases hl : segs.getLast? with
      | none => rw [hl] at h; exact absurd h (by simp)
      | some seg =>
        rw [hl] at h
        obtain ⟨id, args⟩ := seg
        simp only [RsSegment.ident, RsSegment.args] at h ⊢
        rw [Bool.or_eq_true, Bool.and_eq_true, Bool.and_eq_true] at h
        rcases h with ⟨hs, ha⟩ | ⟨hs, he⟩
        · rw [bne_iff_ne] at hs ha
          simp [hs, ha]
        · rw [beq_iff_eq] at hs
          subst hs
          simp [he]

/-- The unnamed-fields loop of `get_deps` numbers its dependencies with
consecutive indices starting at `k`, one per field, in declaration order. -/
theorem get_deps_unnamed_fields (c : String) (k : Nat) (fs : List RsField)
    (deps : List Dependency) (h : get_deps_unnamed c k fs = Except.ok deps) :
    deps.map Dependency.field = (List.range' k fs.length).map TargetField.unnamed := by
  induction fs generalizing k deps with
  | nil =>
    injection h with h1
    subst h1
    rfl
  | cons f rest ih =>
    unfold get_deps_unnamed at h
    split at h
    · exact Except.noConfusion h
    next p heq =>
      split at h
      · exact Except.noConfusion h
      next deps2 heq2 =>
        injection h with h1
        subst h1
        simp [List.range'_succ, ih _ _ heq2]

/-- Definitional unfolding of `parse_derive_injectable` on a tuple-struct
input: the container identifier is the unconditional default and the
dependency loop starts at index 0. -/
theorem parse_unnamed_eq (name : String) (fs : List RsField) :
    parse_derive_injectable
      (DeriveInput.mk name (Data.structData (DataStruct.mk (Fields.unnamed fs)))) =
      (match get_deps_unnamed "container" 0 fs with
       | Except.error e => Except.error e
       | Except.ok deps =>
         Except.ok (InjectableTarget.mk name "container" none deps false)) := rfl

/-! ## Claim theorems -/

/-- C1, counterexample: for the declared field type `Arc<Mutex<Foo>>`,
`get_type_and_scope` returns the Arc's whole argument `Mutex<Foo>` with
scope `Singleton` — not the inner type `Foo` the claim states. -/
theorem arc_mutex_returns_mutex_cx :
    get_type_and_scope (RsType.path false [RsSegment.mk "Arc" (RsPathArguments.angleBracketed
      [RsGenericArg.typeArg (RsType.path false [RsSegment.mk "Mutex"
        (RsPathArguments.angleBracketed [RsGenericArg.typeArg
          (RsType.path false [RsSegment.mk "Foo" RsPathArguments.noArgs])])])])])
      = Except.ok (RsType.path false [RsSegment.mk "Mutex"
          (RsPathArguments.angleBracketed [RsGenericArg.typeArg
            (RsType.path false [RsSegment.mk "Foo" RsPathArguments.noArgs])])],
          Scope.Singleton) ∧
    get_type_and_scope (RsType.path false [RsSegment.mk "Arc" (RsPathArguments.angleBracketed
      [RsGenericArg.typeArg (RsType.path false [RsSegment.mk "Mutex"
        (RsPathArguments.angleBracketed [RsGenericArg.typeArg
          (RsType.path false [RsSegment.mk "Foo" RsPathArguments.noArgs])])])])])
      ≠ Except.ok (RsType.path false [RsSegment.mk "Foo" RsPathArguments.noArgs],
          Scope.Singleton) := by
  refine ⟨rfl, fun h => ?_⟩
  rw [show get_type_and_scope (RsType.path false [RsSegment.mk "Arc"
    (RsPathArguments.angleBracketed [RsGenericArg.typeArg (RsType.path false
      [RsSegment.mk "Mutex" (RsPathArguments.angleBracketed [RsGenericArg.typeArg
        (RsType.path false [RsSegment.mk "Foo" RsPathArguments.noArgs])])])])])
    = Except.ok (RsType.path false [RsSegment.mk "Mutex"
        (RsPathArguments.angleBracketed [RsGenericArg.typeArg
          (RsType.path false [RsSegment.mk "Foo" RsPathArguments.noArgs])])],
        Scope.Singleton) from rfl] at h
  simp at h

/-- C1, as amended: for every field whose declared type is a single-path
generic `Arc` whose sole argument is a single-path generic `Mutex`
applied to an argument `T`, classification returns the Arc's whole
argument `Mutex<T>` — not the inner `T` — together with scope `Singleton`. -/
theorem arc_mutex_classification (T : RsType) :
    get_type_and_scope (RsType.path false [RsSegment.mk "Arc" (RsPathArguments.angleBracketed
      [RsGenericArg.typeArg (RsType.path false [RsSegment.mk "Mutex"
        (RsPathArguments.angleBracketed [RsGenericArg.typeArg T])])])])
    = Except.ok (RsType.path false [RsSegment.mk "Mutex"
        (RsPathArguments.angleBracketed [RsGenericArg.typeArg T])], Scope.Singleton) := rfl

/-- C2: at the failing input `struct S { container: Foo }` the parsed
target's chosen container identifier is `container1` (the collision
resolver renamed it), but the dependency produced for the field carries the
hard-coded identifier `container` — the two differ, violating the claimed
invariant. -/
theorem dep_container_mismatch_eval :
    parse_derive_injectable (DeriveInput.mk "S" (Data.structData (DataStruct.mk (Fields.named
      [RsField.mk (some "container")
        (RsType.path false [RsSegment.mk "Foo" RsPathArguments.noArgs])])))) =
    Except.ok (InjectableTarget.mk "S" "container1" none
      [Dependency.mk (TargetField.named "container")
        (RsType.path false [RsSegment.mk "Foo" RsPathArguments.noArgs])
        Scope.Scoped "container"] false) ∧
    "container1" ≠ "container" := by
  exact ⟨rfl, by decide⟩

/-- C3: with one field named `container` the resolver yields `container1`
as the claim states, but with fields `container` and `container1` (in
declaration order) it yields `container12` — the counter is appended to the
current candidate, not to the base name — and not the `container2` the
claim (and the source's own comment) state. -/
theorem container_identifier_collision_eval :
    get_container_identifier (DataStruct.mk (Fields.named
      [RsField.mk (some "container") RsType.other])) = Except.ok "container1" ∧
    get_container_identifier (DataStruct.mk (Fields.named
      [RsField.mk (some "container") RsType.other,
       RsField.mk (some "container1") RsType.other])) = Except.ok "container12" ∧
    "container12" ≠ "container2" := by
  exact ⟨rfl, rfl, by decide⟩

/-- C4, counterexample: the namespaced path `module::Singleton<Foo>` is
*matched* (only the last path segment's name is inspected), so
classification returns `(Foo, Singleton)` — not the declared type with
scope `Scoped` that the claim states for this shape. -/
theorem namespaced_singleton_cx :
    get_type_and_scope (RsType.path false [RsSegment.mk "module" RsPathArguments.noArgs,
      RsSegment.mk "Singleton" (RsPathArguments.angleBracketed [RsGenericArg.typeArg
        (RsType.path false [RsSegment.mk "Foo" RsPathArguments.noArgs])])])
      = Except.ok (RsType.path false [RsSegment.mk "Foo" RsPathArguments.noArgs],
          Scope.Singleton) ∧
    get_type_and_scope (RsType.path false [RsSegment.mk "module" RsPathArguments.noArgs,
      RsSegment.mk "Singleton" (RsPathArguments.angleBracketed [RsGenericArg.typeArg
        (RsType.path false [RsSegment.mk "Foo" RsPathArguments.noArgs])])])
      ≠ Except.ok (RsType.path false [RsSegment.mk "module" RsPathArguments.noArgs,
          RsSegment.mk "Singleton" (RsPathArguments.angleBracketed [RsGenericArg.typeArg
            (RsType.path false [RsSegment.mk "Foo" RsPathArguments.noArgs])])],
          Scope.Scoped) := by
  refine ⟨rfl, fun h => ?_⟩
  rw [show get_type_and_scope (RsType.path false [RsSegment.mk "module" RsPathArguments.noArgs,
    RsSegment.mk "Singleton" (RsPathArguments.angleBracketed [RsGenericArg.typeArg
      (RsType.path false [RsSegment.mk "Foo" RsPathArguments.noArgs])])])
    = Except.ok (RsType.path false [RsSegment.mk "Foo" RsPathArguments.noArgs],
        Scope.Singleton) from rfl] at h
  simp at h

/-- C4, as amended: every declared field type of a shape that matches
neither wrapper pattern *by its last path segment* — non-path types,
qualified self-types, unresolved generic parameters, plain `Foo`,
`Box<Foo>`, `Vec<Foo>`, or a type literally named `Singleton` with zero
generic arguments — is classified as the declared type unchanged with
scope `Scoped`.  (Namespaced paths such as `module::Singleton<T>` are
*not* in this class: only the last segment's name is inspected.) -/
theorem default_shape_scoped (ty : RsType) (h : spec_default_shape ty = true) :
    get_type_and_scope ty = Except.ok (ty, Scope.Scoped) := by
  unfold get_type_and_scope
  rw [default_shape_none ty h]

/-- C4, witness: `Box<Foo>` is in the default class and is classified
unchanged with scope `Scoped`. -/
theorem default_shape_scoped_witness :
    spec_default_shape (RsType.path false [RsSegment.mk "Box" (RsPathArguments.angleBracketed
      [RsGenericArg.typeArg (RsType.path false [RsSegment.mk "Foo" RsPathArguments.noArgs])])])
      = true ∧
    get_type_and_scope (RsType.path false [RsSegment.mk "Box" (RsPathArguments.angleBracketed
      [RsGenericArg.typeArg (RsType.path false [RsSegment.mk "Foo" RsPathArguments.noArgs])])])
      = Except.ok (RsType.path false [RsSegment.mk "Box" (RsPathArguments.angleBracketed
          [RsGenericArg.typeArg (RsType.path false
            [RsSegment.mk "Foo" RsPathArguments.noArgs])])], Scope.Scoped) :=
  ⟨rfl, default_shape_scoped _ rfl⟩

/-- C5, counterexample: for the tuple struct `Pair(Foo, Bar)` the emitted
construction expression is the brace-delimited literal `Pair { v0 , v1 }`,
not the positional call `Pair(v0, v1)` the claim states. -/
theorem tuple_emit_braces_cx :
    Except.map InjectableTarget.emit (parse_derive_injectable (DeriveInput.mk "Pair"
      (Data.structData (DataStruct.mk (Fields.unnamed
        [RsField.mk none (RsType.path false [RsSegment.mk "Foo" RsPathArguments.noArgs]),
         RsField.mk none (RsType.path false [RsSegment.mk "Bar" RsPathArguments.noArgs])]))))) =
    Except.ok (EmittedImpl.mk "Pair" "container"
      [Dependency.mk (TargetField.unnamed 0)
        (RsType.path false [RsSegment.mk "Foo" RsPathArguments.noArgs]) Scope.Scoped "container",
       Dependency.mk (TargetField.unnamed 1)
        (RsType.path false [RsSegment.mk "Bar" RsPathArguments.noArgs]) Scope.Scoped "container"]
      ["Pair", "\x7b", "v0", ",", "v1", "\x7d"]) ∧
    (["Pair", "\x7b", "v0", ",", "v1", "\x7d"] : List String)
      ≠ ["Pair", "(", "v0", ",", "v1", ")"] := by
  exact ⟨rfl, by decide⟩

/-- C5, as amended: for every positional-field (tuple) target type parsed
without an explicit constructor, the emitted implementation contains one
resolution statement per field in declaration order (the dependencies are
numbered 0, 1, ... in order), followed by a *brace-delimited field-literal*
construction of the target type listing the local bindings in that same
declaration order — not a positional call. -/
theorem tuple_emit_shape (name : String) (fs : List RsField) (t : InjectableTarget)
    (h : parse_derive_injectable
      (DeriveInput.mk name (Data.structData (DataStruct.mk (Fields.unnamed fs)))) =
      Except.ok t) :
    t.emit.body_deps = t.deps ∧
    t.deps.map Dependency.field = (List.range' 0 fs.length).map TargetField.unnamed ∧
    t.emit.create_instance =
      [name, "\x7b"] ++ List.intersperse "," (t.deps.map var_name) ++ ["\x7d"] := by
  rw [parse_unnamed_eq] at h
  split at h
  · exact Except.noConfusion h
  next deps heq =>
    injection h with h1
    subst h1
    exact ⟨rfl, get_deps_unnamed_fields _ _ _ _ heq, rfl⟩

/-- C5, witness: the parsed target for `Duo(Foo, Bar)` emits its two
dependencies in order and a brace-literal construction. -/
theorem tuple_emit_shape_witness :
    (InjectableTarget.mk "Duo" "container" none
      [Dependency.mk (TargetField.unnamed 0)
        (RsType.path false [RsSegment.mk "Foo" RsPathArguments.noArgs]) Scope.Scoped "container",
       Dependency.mk (TargetField.unnamed 1)
        (RsType.path false [RsSegment.mk "Bar" RsPathArguments.noArgs]) Scope.Scoped "container"]
      false).emit.body_deps =
      (InjectableTarget.mk "Duo" "container" none
        [Dependency.mk (TargetField.unnamed 0)
          (RsType.path false [RsSegment.mk "Foo" RsPathArguments.noArgs]) Scope.Scoped "container",
         Dependency.mk (TargetField.unnamed 1)
          (RsType.path false [RsSegment.mk "Bar" RsPathArguments.noArgs]) Scope.Scoped "container"]
        false).deps ∧
    (InjectableTarget.mk "Duo" "container" none
      [Dependency.mk (TargetField.unnamed 0)
        (RsType.path false [RsSegment.mk "Foo" RsPathArguments.noArgs]) Scope.Scoped "container",
       Dependency.mk (TargetField.unnamed 1)
        (RsType.path false [RsSegment.mk "Bar" RsPathArguments.noArgs]) Scope.Scoped "container"]
      false).deps.map Dependency.field = (List.range' 0 2).map TargetField.unnamed ∧
    (InjectableTarget.mk "Duo" "container" none
      [Dependency.mk (TargetField.unnamed 0)
        (RsType.path false [RsSegment.mk "Foo" RsPathArguments.noArgs]) Scope.Scoped "container",
       Dependency.mk (TargetField.unnamed 1)
        (RsType.path false [RsSegment.mk "Bar" RsPathArguments.noArgs]) Scope.Scoped "container"]
      false).emit.create_instance =
      ["Duo", "\x7b"] ++ List.intersperse ","
        ((InjectableTarget.mk "Duo" "container" none
          [Dependency.mk (TargetField.unnamed 0)
            (RsType.path false [RsSegment.mk "Foo" RsPathArguments.noArgs]) Scope.Scoped "container",
           Dependency.mk (TargetField.unnamed 1)
            (RsType.path false [RsSegment.mk "Bar" RsPathArguments.noArgs]) Scope.Scoped "container"]
          false).deps.map var_name) ++ ["\x7d"] :=
  tuple_emit_shape "Duo"
    [RsField.mk none (RsType.path false [RsSegment.mk "Foo" RsPathArguments.noArgs]),
     RsField.mk none (RsType.path false [RsSegment.mk "Bar" RsPathArguments.noArgs])] _ rfl

/-- C6: the declared field type `Arc<>` (recognized wrapper name `Arc`
with an empty angle-bracketed argument list) makes classification panic —
the `first().unwrap()` of the Arc branch has no emptiness guard — while
`Singleton<'a>` (non-type generic argument) is classified unchanged with
scope `Scoped` as the claim states. -/
theorem arc_empty_args_panics_eval :
    get_type_and_scope (RsType.path false
      [RsSegment.mk "Arc" (RsPathArguments.angleBracketed [])]) =
      Except.error UNWRAP_MSG ∧
    get_type_and_scope (RsType.path false
      [RsSegment.mk "Singleton" (RsPathArguments.angleBracketed [RsGenericArg.lifetime])]) =
      Except.ok (RsType.path false
        [RsSegment.mk "Singleton" (RsPathArguments.angleBracketed [RsGenericArg.lifetime])],
        Scope.Scoped) := by
  exact ⟨rfl, rfl⟩

/-- C7: for the named fields `container1`, `container` (in declaration
order) the resolver's single in-order scan settles on `container1`, which
*is* one of the field names — the resolved identifier is not distinct from
every field name, contrary to the claim. -/
theorem container_identifier_shadowing_eval :
    get_container_identifier (DataStruct.mk (Fields.named
      [RsField.mk (some "container1") RsType.other,
       RsField.mk (some "container") RsType.other])) = Except.ok "container1" ∧
    some "container1" ∈
      [RsField.mk (some "container1") RsType.other,
       RsField.mk (some "container") RsType.other].map RsField.ident := by
  exact ⟨rfl, by decide⟩

/-- C8, counterexample: a constructor named `new` with parameters `a`, `b`
is emitted as `T :: new ( a b )` — the parameter names are juxtaposed with
*no* separator (`#(#params)*`), not comma-separated as the claim states. -/
theorem ctor_call_no_commas_cx :
    (InjectableTarget.mk "T" "container" (some (TargetConstructor.mk "new" ["a", "b"]))
      [] false).emit.create_instance = ["T", "::", "new", "(", "a", "b", ")"] ∧
    (InjectableTarget.mk "T" "container" (some (TargetConstructor.mk "new" ["a", "b"]))
      [] false).emit.create_instance ≠ ["T", "::", "new", "(", "a", ",", "b", ")"] := by
  exact ⟨rfl, by decide⟩

/-- C8, as amended: for every non-unit `InjectableTarget` whose
`TargetConstructor` is present with constructor name `C` and declared
parameter names `p1..pn`, the emitted construction expression is the call
`TargetType :: C ( p1 p2 ... pn )` — the named constructor applied to the
declared parameter names in their declared order, but juxtaposed without
comma separators — instead of a field-literal construction. -/
theorem ctor_emit_shape (t : InjectableTarget) (c : TargetConstructor)
    (h1 : t.is_unit = false) (h2 : t.constructor = some c) :
    t.emit.create_instance = [t.target_type, "::", c.name, "("] ++ c.params ++ [")"] := by
  obtain ⟨n, cn, ctor, deps, u⟩ := t
  simp only at h1 h2
  subst h1
  subst h2
  rfl

/-- C8, witness: a concrete non-unit target with constructor `make(x, y)`. -/
theorem ctor_emit_shape_witness :
    (InjectableTarget.mk "Ty" "container" (some (TargetConstructor.mk "make" ["x", "y"]))
      [] false).emit.create_instance =
      ["Ty", "::", "make", "("] ++ ["x", "y"] ++ [")"] :=
  ctor_emit_shape _ (TargetConstructor.mk "make" ["x", "y"]) rfl rfl

/-- C9: an enumerated or union input type aborts the run with a diagnostic
naming the offending construct and produces no `InjectableTarget`; a struct
input never fails with either of these diagnostics. -/
theorem parse_rejects_enum_and_union (input : DeriveInput) :
    (input.data = Data.enumData →
      parse_derive_injectable input =
        Except.error "Enum types cannot implement `Injectable` with #[derive]") ∧
    (input.data = Data.unionData →
      parse_derive_injectable input =
        Except.error "Union types cannot implement `Injectable` with #[derive]") ∧
    (∀ ds : DataStruct, input.data = Data.structData ds →
      parse_derive_injectable input ≠
        Except.error "Enum types cannot implement `Injectable` with #[derive]" ∧
      parse_derive_injectable input ≠
        Except.error "Union types cannot implement `Injectable` with #[derive]") := by
  obtain ⟨nm, d⟩ := input
  refine ⟨fun h => ?_, fun h => ?_, fun ds hd => ?_⟩
  · simp only at h; subst h; rfl
  · simp only at h; subst h; rfl
  · simp only at hd
    subst hd
    refine ⟨fun h => ?_, fun h => ?_⟩
    · have := parse_struct_error_eq nm ds _ h
      simp [UNWRAP_MSG] at this
    · have := parse_struct_error_eq nm ds _ h
      simp [UNWRAP_MSG] at this

/-- C9, witness: a concrete enum input is rejected with the enum
diagnostic. -/
theorem parse_rejects_enum_and_union_witness :
    parse_derive_injectable (DeriveInput.mk "E" Data.enumData) =
      Except.error "Enum types cannot implement `Injectable` with #[derive]" :=
  (parse_rejects_enum_and_union (DeriveInput.mk "E" Data.enumData)).1 rfl

/-- C10, counterexample: the zero-field named struct `struct S {}` has no
fields at all, yet its parsed `is_unit` flag is `false` — the flag records
`fields == Fields::Unit` (the unit *syntax* `struct S;`), not "has no
fields". -/
theorem empty_named_struct_is_unit_cx :
    Except.map InjectableTarget.is_unit (parse_derive_injectable
      (DeriveInput.mk "S" (Data.structData (DataStruct.mk (Fields.named []))))) =
      Except.ok false ∧
    Except.map InjectableTarget.deps (parse_derive_injectable
      (DeriveInput.mk "S" (Data.structData (DataStruct.mk (Fields.named []))))) =
      Except.ok [] := by
  exact ⟨rfl, rfl⟩

/-- C10, as amended: for every struct input, the parsed target's `is_unit`
flag is true exactly when the fields are the unit shape (`Fields::Unit` —
the syntax `struct S;`; zero-field named or tuple structs do *not* count),
and whenever `is_unit` is true the dependency list is empty. -/
theorem parse_is_unit_iff (name : String) (ds : DataStruct) (t : InjectableTarget)
    (h : parse_derive_injectable (DeriveInput.mk name (Data.structData ds)) = Except.ok t) :
    (t.is_unit = true ↔ ds.fields = Fields.unit) ∧ (t.is_unit = true → t.deps = []) := by
  rw [parse_struct_eq] at h
  split at h
  · exact Except.noConfusion h
  next c heq =>
    split at h
    · exact Except.noConfusion h
    next deps heq2 =>
      injection h with h1
      subst h1
      refine ⟨fields_is_unit_iff ds.fields, fun hu => ?_⟩
      have hf := (fields_is_unit_iff ds.fields).mp hu
      rw [hf] at heq2
      injection heq2 with h2
      exact h2.symm

/-- C10, witness: a concrete unit struct `struct U;` parses with
`is_unit = true` and an empty dependency list. -/
theorem parse_is_unit_iff_witness :
    ((InjectableTarget.mk "U" "_" none [] true).is_unit = true ↔
      (DataStruct.mk Fields.unit).fields = Fields.unit) ∧
    ((InjectableTarget.mk "U" "_" none [] true).is_unit = true →
      (InjectableTarget.mk "U" "_" none [] true).deps = []) :=
  parse_is_unit_iff "U" (DataStruct.mk Fields.unit) _ rfl

end Dilib
